import Mathlib

/-!
Verification of the notebook-side command handlers of jupyter-notebook-mcp.

The repository ships two browser clients that run inside a Jupyter Notebook
6.x frontend and execute commands arriving over a WebSocket:

* `src/client.js` — the client injected by the server (the live one);
* `notebooks/client.js` — a legacy variant with the same command set but
  different behaviour for `insert_and_execute_cell` and `run_all_cells`.

Both are embedded below.  JavaScript strings that are measured or sliced
(`.length`, `.substring`) are modelled as `List Char`; other strings stay
`String`.  Absent JSON fields are `Option`; the JavaScript falsy-default
idiom `x || d` is modelled by the `jsOr*` helpers (`0`, `""`, absent and
`null` are all falsy).  Calls into the ambient `Jupyter.notebook` API are
modelled from the Jupyter Notebook 6.x frontend
(`notebook/static/notebook/js/notebook.js`):

* `insert_cell_at_index(type, index)` clamps `index` into `[0, ncells]`;
* `select(index)` checks `is_valid_cell_index` and leaves the selection
  unchanged when the index is invalid;
* `get_selected_cell()` returns the currently selected cell, or null when
  nothing is selected;
* a fresh code cell has an empty (but present) `output_area.outputs`
  array; markdown and raw cells have no `output_area`;
* the `finished_execute.CodeCell` event fires only for code cells.

Each handler is a function from a notebook, a host context (kernel effect
and outcomes of the fallible ambient calls) and a request to a final
notebook plus a trace of events; sending a response over the WebSocket is
the `Event.send` event, so temporal claims (what was sent before or after
an execution-finished signal) are statements about the trace.
-/

/-- One recorded output fragment of a code cell (`output_area.outputs[i]`):
an optional direct `text` field and an optional `data` mime bundle. -/
structure Output where
  text : Option (List Char)
  data : Option (List (String × List Char))
deriving DecidableEq, Repr

/-- An image payload collected by `extractCellOutputContent`:
`{format: format, data: output.data[format]}`. -/
structure ImageRec where
  format : String
  data : List Char
deriving DecidableEq, Repr

/-- The result object built by `extractCellOutputContent`
(`{text, is_text_truncated, images}`). -/
structure ExtractResult where
  text : List Char
  is_text_truncated : Bool
  images : List ImageRec
deriving DecidableEq, Repr

/-- A notebook cell as the handlers see it: optional `cell_id`,
`cell_type`, source text, and `output_area.outputs` (`none` when the cell
has no output area, `some []` when the output array is present but
empty — a JS array is truthy even when empty). -/
structure Cell where
  cell_id : Option String
  cell_type : String
  source : String
  outputs : Option (List Output)
deriving DecidableEq, Repr

/-- The notebook document: its cells in order and the index of the
currently selected cell, if any. -/
structure Notebook where
  cells : List Cell
  selected : Option Nat
deriving DecidableEq, Repr

/-- JS falsy-default on an optional number: `v || d` (both an absent field
and `0` yield the default). -/
def jsOrNat (v : Option Nat) (d : Nat) : Nat :=
  match v with
  | some n => if n = 0 then d else n
  | none => d

/-- JS falsy-default on an optional (possibly negative) number. -/
def jsOrInt (v : Option Int) (d : Int) : Int :=
  match v with
  | some n => if n = 0 then d else n
  | none => d

/-- JS falsy-default on an optional string: `v || d` (absent and `""` are
falsy). -/
def jsOrStr (v : Option String) (d : String) : String :=
  match v with
  | some s => if s = "" then d else s
  | none => d

/-- Lookup in a mime bundle: `output.data[key]`. -/
def lookupMime (d : List (String × List Char)) (key : String) : Option (List Char) :=
  (d.find? (fun p => p.fst == key)).map Prod.snd

/-- The `"text/plain"` contribution of one fragment:
`output.data && output.data["text/plain"]` appends the representation when
the bundle is present and the entry is truthy (appending an empty string
is a no-op, so the truthiness guard is extensionally absorbed). -/
def textPlainContrib (o : Output) : List Char :=
  match o.data with
  | some d =>
    match lookupMime d "text/plain" with
    | some t => t
    | none => []
  | none => []

/-- The text contributed by one output fragment, per the loop body of
`extractCellOutputContent`: `if (output.text) result.text += output.text;
else if (output.data && output.data["text/plain"]) ...`.  An empty direct
`text` field is JS-falsy, so the else-branch is taken. -/
def outputTextContrib (o : Output) : List Char :=
  match o.text with
  | some t => if t = [] then textPlainContrib o else t
  | none => textPlainContrib o

/-- The three image encodings probed by `extractCellOutputContent`, in
source order: `["image/png", "image/jpeg", "image/svg+xml"]`. -/
def imageMimeFormats : List String :=
  ["image/png", "image/jpeg", "image/svg+xml"]

/-- The image records contributed by one fragment: for each of the three
supported encodings in the fixed source order, if `output.data[format]` is
truthy, an `{format, data}` record. -/
def outputImages (o : Output) : List ImageRec :=
  match o.data with
  | some d =>
    imageMimeFormats.filterMap (fun fmt =>
      match lookupMime d fmt with
      | some v => if v = [] then none else some { format := fmt, data := v }
      | none => none)
  | none => []

/-- One iteration of the `forEach` loop of `extractCellOutputContent`:
appends the fragment's text contribution to `result.text` and its image
records to `result.images`. -/
def processOutput (acc : List Char × List ImageRec) (o : Output) :
    List Char × List ImageRec :=
  (acc.1 ++ outputTextContrib o, acc.2 ++ outputImages o)

/-- Function `extractCellOutputContent(cell, maxTextLength)` of `src/client.js`
(lines 367-401).  Only code cells with a present output collection are
inspected; after the loop, `if (maxTextLength && result.text.length >
maxTextLength)` the text is cut to `substring(0, maxTextLength)` and
`is_text_truncated` is set (`maxTextLength` absent or `0` is falsy: no
truncation). -/
def extractCellOutputContent (cell : Cell) (maxTextLength : Option Nat) :
    ExtractResult :=
  if cell.cell_type = "code" then
    match cell.outputs with
    | some outs =>
      let p := outs.foldl processOutput ([], [])
      match maxTextLength with
      | some m =>
        if m ≠ 0 ∧ m < p.1.length then
          { text := p.1.take m, is_text_truncated := true, images := p.2 }
        else
          { text := p.1, is_text_truncated := false, images := p.2 }
      | none => { text := p.1, is_text_truncated := false, images := p.2 }
    | none => { text := [], is_text_truncated := false, images := [] }
  else { text := [], is_text_truncated := false, images := [] }

/-- Unrolling the `forEach` loop: the accumulated text is the join of the
per-fragment text contributions in fragment order, and the accumulated
images are the join of the per-fragment image records in fragment order. -/
theorem foldl_processOutput (outs : List Output) (t : List Char)
    (im : List ImageRec) :
    outs.foldl processOutput (t, im) =
      (t ++ (outs.map outputTextContrib).flatten,
       im ++ (outs.map outputImages).flatten) := by
  induction outs generalizing t im with
  | nil => simp
  | cons o rest ih =>
    simp [processOutput, ih, List.append_assoc]

/-- A command envelope as the handlers read it.  Fields the handlers do
not inspect (e.g. `type`, already dispatched on) are omitted; the
command-specific numeric and string fields are optional, since the JSON
message may lack them. -/
structure Request where
  request_id : String
  position : Option Nat := none
  cell_type : Option String := none
  content : Option String := none
  index : Option Int := none
  max_length : Option Nat := none
deriving DecidableEq, Repr

/-- A response envelope (`ws.send(JSON.stringify(...))`).  Every field a
handler may set is optional except the three that every envelope carries
(`type`, `request_id`, `status`); a `none` field is absent from the JSON
object. -/
structure Response where
  rtype : String
  request_id : String
  status : String
  message : Option String := none
  cell_id : Option String := none
  position : Option Nat := none
  index : Option Int := none
  output_text : Option (List Char) := none
  is_truncated : Option Bool := none
  has_images : Option Bool := none
  images : Option (List ImageRec) := none
  notebook_path : Option String := none
deriving DecidableEq, Repr

/-- Observable events of one handler invocation, in order.  `send r` is a
`ws.send` of envelope `r`; `execFinished i` is the
`finished_execute.CodeCell` signal for the cell at index `i`. -/
inductive Event where
  | executeCell (i : Nat)
  | execFinished (i : Nat)
  | renderCell (i : Nat)
  | saveCheckpoint
  | restartRunAll
  | executeAllCells
  | send (r : Response)
deriving DecidableEq, Repr

/-- The ambient host environment a handler runs against: the kernel's
effect on an executed code cell, the outcomes of the fallible ambient
calls (`insert_cell_at_index`, `save_checkpoint` may throw; the thrown
error's `toString()` is the carried message), the notebook path, and
`Date.now().toString()`. -/
structure HostCtx where
  exec : Cell → Cell
  insertOutcome : Except String Unit
  saveOutcome : Except String Unit
  notebook_path : String
  now : String

/-- The error envelope every handler's `catch` block sends:
`{type, request_id, status: "error", message: error.toString()}`. -/
def errorEnvelope (kind request_id msg : String) : Response :=
  { rtype := kind, request_id := request_id, status := "error",
    message := some msg }

/-- The `try { ... } catch (error) { ws.send(errorResponse) }` boundary
shared by every handler: a failure thrown inside the body is turned into
the handler's error envelope.  In both clients every throwing point
precedes any document mutation, so the notebook is returned unchanged on
the error path. -/
def runCatch (kind request_id : String) (nb : Notebook)
    (body : Except String (Notebook × List Event)) : Notebook × List Event :=
  match body with
  | .ok r => r
  | .error e => (nb, [.send (errorEnvelope kind request_id e)])

/-- Method `Jupyter.notebook.select(index)` (Notebook 6.x): the selection moves
only when `is_valid_cell_index(index)` holds; an invalid index leaves the
notebook untouched. -/
def Notebook.selectIdx (nb : Notebook) (i : Int) : Notebook :=
  if 0 ≤ i ∧ i < (nb.cells.length : Int) then
    { nb with selected := some i.toNat }
  else nb

/-- Method `Jupyter.notebook.get_selected_cell()`: the selected index and cell,
or `none` when nothing is selected (a null cell in JS). -/
def Notebook.selectedCell (nb : Notebook) : Option (Nat × Cell) :=
  match nb.selected with
  | some j => (nb.cells.get? j).map (fun c => (j, c))
  | none => none

/-- Access `Jupyter.notebook.get_cells()[i]` for a possibly negative index:
`some` exactly when `0 ≤ i < cells.length`. -/
def Notebook.cellAt? (nb : Notebook) (i : Int) : Option Cell :=
  if 0 ≤ i then nb.cells.get? i.toNat else none

/-- Replace the cell at index `j` (the in-place update a cell object
undergoes when its execution finishes). -/
def Notebook.setCell (nb : Notebook) (j : Nat) (c : Cell) : Notebook :=
  { nb with cells := nb.cells.set j c }

/-- Insertion of a cell at a (already clamped) index. -/
def listInsertAt (l : List Cell) (n : Nat) (c : Cell) : List Cell :=
  l.take n ++ c :: l.drop n

/-- The cell `insert_cell_at_index(cell_type, ...)` creates, after
`cell.set_text(content)`: no id, and an empty-but-present output array
exactly for code cells (markdown and raw cells have no `output_area`). -/
def freshCell (cell_type : String) (content : String) : Cell :=
  { cell_id := none, cell_type := cell_type, source := content,
    outputs := if cell_type = "code" then some [] else none }

/-- The success envelope `sendResult` builds in `handleInsertCell` of
`src/client.js` (lines 57-74): output captured by
`extractCellOutputContent(cell, 1500)`, `cell_id: cell.cell_id || "cell_"
+ position`, the coerced `position`, and `has_images:
outputResult.images.length > 0`. -/
def insertCellSuccess (request_id : String) (cell : Cell) (position : Nat) :
    Response :=
  let outputResult := extractCellOutputContent cell (some 1500)
  { rtype := "insert_cell_result", request_id := request_id,
    status := "success",
    cell_id := some (jsOrStr cell.cell_id ("cell_" ++ toString position)),
    position := some position,
    output_text := some outputResult.text,
    is_truncated := some outputResult.is_text_truncated,
    has_images := some (decide (0 < outputResult.images.length)) }

/-- Handler `handleInsertCell` of `src/client.js` (lines 46-99).  The numeric and
string fields are falsy-defaulted (`data.position || 1`, `data.cell_type
|| "code"`, `data.content || ""`); the insertion index is clamped by the
ambient API; for a code cell the response is sent by the one-shot
`finished_execute.CodeCell` listener, after execution, and captures the
executed cell's output; for markdown (and any other type) the response is
sent immediately. -/
def handleInsertCell (nb : Notebook) (ctx : HostCtx) (data : Request) :
    Notebook × List Event :=
  let request_id := data.request_id
  let position := jsOrNat data.position 1
  let cell_type := jsOrStr data.cell_type "code"
  let content := jsOrStr data.content ""
  runCatch "insert_cell_result" request_id nb (do
    let _ ← ctx.insertOutcome
    let idx := min position nb.cells.length
    let cell := freshCell cell_type content
    let nb1 : Notebook := { nb with cells := listInsertAt nb.cells idx cell }
    if cell_type = "code" then
      let cellExec := ctx.exec cell
      pure (nb1.setCell idx cellExec,
        [.executeCell idx, .execFinished idx,
         .send (insertCellSuccess request_id cellExec position)])
    else if cell_type = "markdown" then
      pure (nb1, [.renderCell idx,
        .send (insertCellSuccess request_id cell position)])
    else
      pure (nb1, [.send (insertCellSuccess request_id cell position)]))

/-- Handler `handleSaveNotebook` of `src/client.js` (lines 102-128):
`save_checkpoint()` then a success envelope carrying the notebook path;
any thrown save error becomes a `save_result` error envelope with the
error's message. -/
def handleSaveNotebook (nb : Notebook) (ctx : HostCtx) (data : Request) :
    Notebook × List Event :=
  let request_id := data.request_id
  runCatch "save_result" request_id nb (do
    let _ ← ctx.saveOutcome
    pure (nb, [.saveCheckpoint,
      .send { rtype := "save_result", request_id := request_id,
              status := "success",
              notebook_path := some ctx.notebook_path }]))

/-- The success envelope `sendResult` builds in `handleRunCell` of
`src/client.js` (lines 217-232): output captured with max length 1500
from the executed cell. -/
def runCellSuccess (request_id cell_id : String) (index : Int)
    (cell : Cell) : Response :=
  let outputs := extractCellOutputContent cell (some 1500)
  { rtype := "run_cell_result", request_id := request_id,
    status := "success",
    cell_id := some cell_id, index := some index,
    output_text := some outputs.text,
    is_truncated := some outputs.is_text_truncated,
    has_images := some (decide (0 < outputs.images.length)) }

/-- Handler `handleRunCell` of `src/client.js` (lines 205-253).  No bounds check
of its own: `select(index)` ignores an invalid index, then
`get_selected_cell()` is executed.  A null selected cell makes the
`cell.cell_id` access throw (caught at the boundary; the exact TypeError
message is host-dependent).  The response is sent by the one-shot
`finished_execute.CodeCell` listener, which fires only for a code cell;
for a non-code cell no response is ever sent. -/
def handleRunCell (nb : Notebook) (ctx : HostCtx) (data : Request) :
    Notebook × List Event :=
  let request_id := data.request_id
  let index := jsOrInt data.index 0
  runCatch "run_cell_result" request_id nb (do
    let nb1 := nb.selectIdx index
    match nb1.selectedCell with
    | none => throw "TypeError: cell is null"
    | some jc =>
      let cell_id := jsOrStr jc.2.cell_id ctx.now
      if jc.2.cell_type = "code" then
        let cellExec := ctx.exec jc.2
        pure (nb1.setCell jc.1 cellExec,
          [.executeCell jc.1, .execFinished jc.1,
           .send (runCellSuccess request_id cell_id index cellExec)])
      else
        pure (nb1, [.executeCell jc.1]))

/-- Handler `handleRunAllCells` of `src/client.js` (lines 256-281):
`restart_run_all()` is issued and the success envelope is sent at once,
without waiting for any execution-finished signal. -/
def handleRunAllCells (nb : Notebook) (ctx : HostCtx) (data : Request) :
    Notebook × List Event :=
  let request_id := data.request_id
  runCatch "run_all_cells_result" request_id nb
    (pure (nb, [.restartRunAll,
      .send { rtype := "run_all_cells_result", request_id := request_id,
              status := "success" }]))

/-- The error message of the explicit bounds check in
`handleGetCellTextOutput` / `handleGetCellImageOutput`:
`(new Error("Cell index out of range")).toString()`. -/
def cellIndexOutOfRangeMsg : String := "Error: Cell index out of range"

/-- Handler `handleGetCellTextOutput` of `src/client.js` (lines 284-325):
falsy-defaulted `index` and `max_length` (`data.index || 0`,
`data.max_length || 1500`), an explicit bounds check that throws
`Error("Cell index out of range")`, then a success envelope with the
captured output. -/
def handleGetCellTextOutput (nb : Notebook) (ctx : HostCtx)
    (data : Request) : Notebook × List Event :=
  let request_id := data.request_id
  let index := jsOrInt data.index 0
  let maxLength := jsOrNat data.max_length 1500
  runCatch "get_cell_text_output_result" request_id nb (do
    match nb.cellAt? index with
    | none => throw cellIndexOutOfRangeMsg
    | some cell =>
      let outputContent := extractCellOutputContent cell (some maxLength)
      let resp : Response :=
        { rtype := "get_cell_text_output_result",
          request_id := request_id, status := "success",
          cell_id := some (jsOrStr cell.cell_id ("cell_" ++ toString index)),
          index := some index,
          output_text := some outputContent.text,
          is_truncated := some outputContent.is_text_truncated,
          has_images := some (decide (0 < outputContent.images.length)) }
      pure (nb, [.send resp]))

/-- Handler `handleGetCellImageOutput` of `src/client.js` (lines 327-364): the
same falsy-defaulted `index` and the same bounds check as the text
handler; `extractCellOutputContent(cell)` is called with no max length,
and the success envelope carries only the image records (no text, no
truncation field). -/
def handleGetCellImageOutput (nb : Notebook) (ctx : HostCtx)
    (data : Request) : Notebook × List Event :=
  let request_id := data.request_id
  let index := jsOrInt data.index 0
  runCatch "get_cell_image_output_result" request_id nb (do
    match nb.cellAt? index with
    | none => throw cellIndexOutOfRangeMsg
    | some cell =>
      let outputContent := extractCellOutputContent cell none
      let resp : Response :=
        { rtype := "get_cell_image_output_result",
          request_id := request_id, status := "success",
          cell_id := some (jsOrStr cell.cell_id ("cell_" ++ toString index)),
          index := some index,
          images := some outputContent.images }
      pure (nb, [.send resp]))

namespace NBClient

/-- Handler `handleInsertCell` of the legacy `notebooks/client.js` (lines 39-78):
`data.position || 0`, and for a code cell `cell.execute()` is issued but
not awaited — the success envelope (which carries no output fields) is
sent immediately, before the `finished_execute` signal fires. -/
def handleInsertCell (nb : Notebook) (ctx : HostCtx) (data : Request) :
    Notebook × List Event :=
  let request_id := data.request_id
  let position := jsOrNat data.position 0
  let cell_type := jsOrStr data.cell_type "code"
  let content := jsOrStr data.content ""
  runCatch "insert_cell_result" request_id nb (do
    let _ ← ctx.insertOutcome
    let idx := min position nb.cells.length
    let cell := freshCell cell_type content
    let nb1 : Notebook := { nb with cells := listInsertAt nb.cells idx cell }
    let resp : Response :=
      { rtype := "insert_cell_result", request_id := request_id,
        status := "success",
        cell_id := some (jsOrStr cell.cell_id ("cell_" ++ toString position)),
        position := some position }
    if cell_type = "code" then
      let cellExec := ctx.exec cell
      pure (nb1.setCell idx cellExec,
        [.executeCell idx, .send resp, .execFinished idx])
    else if cell_type = "markdown" then
      pure (nb1, [.renderCell idx, .send resp])
    else
      pure (nb1, [.send resp]))

/-- Handler `handleRunAllCells` of the legacy `notebooks/client.js` (lines
232-257): `execute_all_cells()` — every cell is re-executed but the
kernel is not restarted — and the success envelope is sent at once. -/
def handleRunAllCells (nb : Notebook) (ctx : HostCtx) (data : Request) :
    Notebook × List Event :=
  let request_id := data.request_id
  runCatch "run_all_cells_result" request_id nb
    (pure (nb, [.executeAllCells,
      .send { rtype := "run_all_cells_result", request_id := request_id,
              status := "success" }]))

end NBClient

/-- The response envelopes sent during a trace, in order. -/
def sentResponses (t : List Event) : List Response :=
  t.filterMap (fun e => match e with | .send r => some r | _ => none)

/-- Returns `true` iff every `send` event in the trace is preceded by some
`execFinished` event. -/
def sendsAfterFinish : List Event → Bool → Bool
  | [], _ => true
  | .execFinished _ :: rest, _ => sendsAfterFinish rest true
  | .send _ :: rest, seen => seen && sendsAfterFinish rest seen
  | _ :: rest, seen => sendsAfterFinish rest seen

/-- Returns `true` iff the trace contains no `execFinished` event at all. -/
def noExecFinished (t : List Event) : Bool :=
  t.all (fun e => match e with | .execFinished _ => false | _ => true)

/-- Relating extraction with and without a max length: truncation is a
single post-processing step on the untruncated result (and a falsy max
length of `0` disables it). -/
theorem extract_some_eq_none (cell : Cell) (M : Nat) :
    extractCellOutputContent cell (some M) =
      (if M ≠ 0 ∧ M < (extractCellOutputContent cell none).text.length then
        { text := (extractCellOutputContent cell none).text.take M,
          is_text_truncated := true,
          images := (extractCellOutputContent cell none).images }
       else extractCellOutputContent cell none) := by
  by_cases hc : cell.cell_type = "code"
  · cases houts : cell.outputs with
    | none => simp [extractCellOutputContent, hc, houts]
    | some outs => simp [extractCellOutputContent, hc, houts]
  · simp [extractCellOutputContent, hc]

/-- Extraction with no max length, on a code cell with a present output
collection: the text is the join of the per-fragment contributions and
the images the join of the per-fragment image records, both in fragment
order, untruncated. -/
theorem extract_none_eq (cell : Cell) (outs : List Output)
    (hc : cell.cell_type = "code") (houts : cell.outputs = some outs) :
    extractCellOutputContent cell none =
      { text := (outs.map outputTextContrib).flatten,
        is_text_truncated := false,
        images := (outs.map outputImages).flatten } := by
  simp [extractCellOutputContent, hc, houts, foldl_processOutput]

/-- With no max length specified, the truncation flag is never set. -/
theorem extract_none_not_truncated (cell : Cell) :
    (extractCellOutputContent cell none).is_text_truncated = false := by
  by_cases hc : cell.cell_type = "code"
  · cases houts : cell.outputs <;> simp [extractCellOutputContent, hc, houts]
  · simp [extractCellOutputContent, hc]

/-- C2 (confirmed): for output text of length `L` extracted with a
specified max length `M` (a max length of `0` is JS-falsy and means "no
max specified", hence `0 < M`): if `L > M` the returned text is the first
`M` characters — a hard cut of length exactly `M`, no ellipsis — and the
truncation flag is `true`; if `L ≤ M` the text is returned unmodified and
the flag is `false`. -/
theorem truncation_exact (cell : Cell) (M : Nat) (hM : 0 < M) :
    (M < (extractCellOutputContent cell none).text.length →
      (extractCellOutputContent cell (some M)).text =
        (extractCellOutputContent cell none).text.take M ∧
      (extractCellOutputContent cell (some M)).text.length = M ∧
      (extractCellOutputContent cell (some M)).is_text_truncated = true) ∧
    ((extractCellOutputContent cell none).text.length ≤ M →
      (extractCellOutputContent cell (some M)).text =
        (extractCellOutputContent cell none).text ∧
      (extractCellOutputContent cell (some M)).is_text_truncated = false) := by
  rw [extract_some_eq_none]
  by_cases hlen : M < (extractCellOutputContent cell none).text.length
  · rw [if_pos ⟨Nat.pos_iff_ne_zero.mp hM, hlen⟩]
    refine ⟨fun _ => ⟨rfl, ?_, rfl⟩, fun hle => absurd hlen (by omega)⟩
    simp [List.length_take, Nat.min_eq_left (Nat.le_of_lt hlen)]
  · rw [if_neg (by tauto)]
    exact ⟨fun h => absurd h hlen,
           fun _ => ⟨rfl, extract_none_not_truncated cell⟩⟩

/-- Witness for C2 at a concrete input: two text fragments `"ab"` and
`"cd"` with max length 3 give `"abc"`, length exactly 3, truncated. -/
theorem truncation_exact_witness :
    (extractCellOutputContent
      { cell_id := none, cell_type := "code", source := "",
        outputs := some [{ text := some ['a', 'b'], data := none },
                         { text := some ['c', 'd'], data := none }] }
      (some 3)).text = ['a', 'b', 'c'] ∧
    (extractCellOutputContent
      { cell_id := none, cell_type := "code", source := "",
        outputs := some [{ text := some ['a', 'b'], data := none },
                         { text := some ['c', 'd'], data := none }] }
      (some 3)).is_text_truncated = true := by
  have h := (truncation_exact
    { cell_id := none, cell_type := "code", source := "",
      outputs := some [{ text := some ['a', 'b'], data := none },
                       { text := some ['c', 'd'], data := none }] }
    3 (by decide)).1 (by decide)
  exact ⟨by rw [h.1]; decide, h.2.2⟩

/-- C3 (confirmed): extraction visits the output fragments in recorded
order; each fragment contributes its truthy direct `text` field verbatim,
else its truthy `"text/plain"` representation (`outputTextContrib`); the
text before truncation is the join of these contributions in fragment
order, and the truncation (for a specified max length) is applied once to
the full concatenation, after all fragments are processed — never
per-fragment. -/
theorem extract_concat_before_truncation (cell : Cell) (outs : List Output)
    (M : Nat) (hc : cell.cell_type = "code")
    (houts : cell.outputs = some outs) :
    (extractCellOutputContent cell none).text =
      (outs.map outputTextContrib).flatten ∧
    (extractCellOutputContent cell (some M)).text =
      (if M ≠ 0 ∧ M < ((outs.map outputTextContrib).flatten).length then
        ((outs.map outputTextContrib).flatten).take M
       else (outs.map outputTextContrib).flatten) := by
  have hnone := extract_none_eq cell outs hc houts
  refine ⟨by rw [hnone], ?_⟩
  rw [extract_some_eq_none, hnone]
  by_cases h : M ≠ 0 ∧ M < ((outs.map outputTextContrib).flatten).length
  · rw [if_pos h, if_pos h]
  · rw [if_neg h, if_neg h]

/-- Witness for C3 at a concrete input: a fragment with a direct text
field, one with only a `"text/plain"` entry, and one with an empty (falsy)
direct text field falling back to `"text/plain"`; max length 4 cuts the
full concatenation `"xyzw"` is already ≤ 4, then max length 2 cuts it to
`"xy"` across the fragment boundary. -/
theorem extract_concat_before_truncation_witness :
    (extractCellOutputContent
      { cell_id := none, cell_type := "code", source := "",
        outputs := some
          [{ text := some ['x'], data := none },
           { text := none, data := some [("text/plain", ['y', 'z'])] },
           { text := some [], data := some [("text/plain", ['w'])] }] }
      none).text = ['x', 'y', 'z', 'w'] ∧
    (extractCellOutputContent
      { cell_id := none, cell_type := "code", source := "",
        outputs := some
          [{ text := some ['x'], data := none },
           { text := none, data := some [("text/plain", ['y', 'z'])] },
           { text := some [], data := some [("text/plain", ['w'])] }] }
      (some 2)).text = ['x', 'y'] := by
  have h := extract_concat_before_truncation
    { cell_id := none, cell_type := "code", source := "",
      outputs := some
        [{ text := some ['x'], data := none },
         { text := none, data := some [("text/plain", ['y', 'z'])] },
         { text := some [], data := some [("text/plain", ['w'])] }] }
    [{ text := some ['x'], data := none },
     { text := none, data := some [("text/plain", ['y', 'z'])] },
     { text := some [], data := some [("text/plain", ['w'])] }]
    2 rfl rfl
  exact ⟨by rw [h.1]; decide, by rw [h.2]; decide⟩

/-- C7 (confirmed): for a cell that is not a code cell, or whose output
collection is absent or empty, extraction (with any max length) yields
empty text, no images and a false truncation flag; and the
`get_cell_text_output` handler reports such a cell as a success envelope
(empty text, `is_truncated: false`, `has_images: false`), never as an
error. -/
theorem empty_output_is_success (cell : Cell) (m : Option Nat)
    (h : cell.cell_type ≠ "code" ∨ cell.outputs = none ∨
         cell.outputs = some []) :
    extractCellOutputContent cell m =
      { text := [], is_text_truncated := false, images := [] } ∧
    (∀ (nb : Notebook) (ctx : HostCtx) (data : Request),
      nb.cellAt? (jsOrInt data.index 0) = some cell →
      handleGetCellTextOutput nb ctx data =
        (nb,
         [Event.send
            { rtype := "get_cell_text_output_result",
              request_id := data.request_id, status := "success",
              cell_id := some (jsOrStr cell.cell_id
                ("cell_" ++ toString (jsOrInt data.index 0))),
              index := some (jsOrInt data.index 0),
              output_text := some [], is_truncated := some false,
              has_images := some false }])) := by
  have hextract : ∀ m' : Option Nat, extractCellOutputContent cell m' =
      { text := [], is_text_truncated := false, images := [] } := by
    intro m'
    rcases h with h | h | h
    · simp [extractCellOutputContent, h]
    · cases m' <;> simp [extractCellOutputContent, h]
    · cases m' <;> simp [extractCellOutputContent, h, processOutput]
  refine ⟨hextract m, fun nb ctx data hcell => ?_⟩
  simp only [handleGetCellTextOutput, hcell, hextract]
  rfl

/-- Witness for C7 at a concrete input: a markdown cell at index 0 of a
one-cell notebook. -/
theorem empty_output_is_success_witness :
    extractCellOutputContent
      { cell_id := none, cell_type := "markdown", source := "# t",
        outputs := none } (some 1500) =
      { text := [], is_text_truncated := false, images := [] } ∧
    handleGetCellTextOutput
      { cells := [{ cell_id := none, cell_type := "markdown",
                    source := "# t", outputs := none }], selected := none }
      { exec := id, insertOutcome := Except.ok (),
        saveOutcome := Except.ok (), notebook_path := "nb", now := "0" }
      { request_id := "req-7" } =
      ({ cells := [{ cell_id := none, cell_type := "markdown",
                     source := "# t", outputs := none }], selected := none },
       [Event.send
          { rtype := "get_cell_text_output_result",
            request_id := "req-7", status := "success",
            cell_id := some "cell_0", index := some 0,
            output_text := some [], is_truncated := some false,
            has_images := some false }]) := by
  have h := empty_output_is_success
    { cell_id := none, cell_type := "markdown", source := "# t",
      outputs := none } (some 1500) (Or.inl (by decide))
  refine ⟨h.1, ?_⟩
  have h2 := h.2
    { cells := [{ cell_id := none, cell_type := "markdown",
                  source := "# t", outputs := none }], selected := none }
    { exec := id, insertOutcome := Except.ok (),
      saveOutcome := Except.ok (), notebook_path := "nb", now := "0" }
    { request_id := "req-7" } (by decide)
  exact h2.trans (by decide)

/-- C8 (confirmed): `get_cell_image_output` with a valid index responds
with the ordered image payload sequence — fragments in recorded order,
and within a fragment the three supported encodings in the fixed order
PNG, JPEG, SVG (`outputImages`) — each record carrying its format and its
encoded data verbatim; the envelope carries no output text and no
truncation field (extraction runs with no max length, so nothing is
truncated).  An invalid index produces the same index-out-of-range error
(same thrown message) as `get_cell_text_output`. -/
theorem image_output_contract (nb : Notebook) (ctx : HostCtx)
    (data : Request) :
    (∀ (cell : Cell) (outs : List Output),
      nb.cellAt? (jsOrInt data.index 0) = some cell →
      cell.cell_type = "code" → cell.outputs = some outs →
      handleGetCellImageOutput nb ctx data =
        (nb,
         [Event.send
            { rtype := "get_cell_image_output_result",
              request_id := data.request_id, status := "success",
              cell_id := some (jsOrStr cell.cell_id
                ("cell_" ++ toString (jsOrInt data.index 0))),
              index := some (jsOrInt data.index 0),
              images := some ((outs.map outputImages).flatten) }])) ∧
    (nb.cellAt? (jsOrInt data.index 0) = none →
      handleGetCellImageOutput nb ctx data =
        (nb, [Event.send (errorEnvelope "get_cell_image_output_result"
                data.request_id cellIndexOutOfRangeMsg)]) ∧
      handleGetCellTextOutput nb ctx data =
        (nb, [Event.send (errorEnvelope "get_cell_text_output_result"
                data.request_id cellIndexOutOfRangeMsg)])) := by
  constructor
  · intro cell outs hcell hc houts
    simp only [handleGetCellImageOutput, hcell,
      extract_none_eq cell outs hc houts]
    rfl
  · intro hnone
    constructor
    · simp only [handleGetCellImageOutput, hnone]
      rfl
    · simp only [handleGetCellTextOutput, hnone]
      rfl

/-- A host context whose ambient calls all succeed and whose kernel
effect is the identity (used by concrete instantiations). -/
def idCtx : HostCtx :=
  { exec := id, insertOutcome := Except.ok (),
    saveOutcome := Except.ok (), notebook_path := "nb", now := "0" }

/-- An output fragment carrying an SVG payload listed before a PNG
payload in its mime bundle. -/
def svgPngOutput : Output :=
  { text := none,
    data := some [("image/svg+xml", ['s']), ("image/png", ['p'])] }

/-- A code cell with the single fragment `svgPngOutput`. -/
def svgPngCell : Cell :=
  { cell_id := none, cell_type := "code", source := "p",
    outputs := some [svgPngOutput] }

/-- A one-cell notebook holding `svgPngCell`. -/
def svgPngNotebook : Notebook := { cells := [svgPngCell], selected := none }

/-- Witness for C8 at a concrete input: the single fragment carries an
SVG and a PNG payload, and the response lists the PNG record first (the
fixed encoding order, not the bundle order); the error branch is
exercised at the out-of-range index 3 of the same one-cell notebook. -/
theorem image_output_contract_witness :
    handleGetCellImageOutput svgPngNotebook idCtx { request_id := "req-8" } =
      (svgPngNotebook,
       [Event.send
          { rtype := "get_cell_image_output_result",
            request_id := "req-8", status := "success",
            cell_id := some "cell_0", index := some 0,
            images := some [{ format := "image/png", data := ['p'] },
                            { format := "image/svg+xml",
                              data := ['s'] }] }]) ∧
    handleGetCellImageOutput svgPngNotebook idCtx
        { request_id := "req-8b", index := some 3 } =
      (svgPngNotebook,
       [Event.send (errorEnvelope "get_cell_image_output_result" "req-8b"
          cellIndexOutOfRangeMsg)]) := by
  constructor
  · have h := (image_output_contract svgPngNotebook idCtx
      { request_id := "req-8" }).1 svgPngCell [svgPngOutput]
      (by decide) rfl rfl
    exact h.trans (by decide)
  · exact ((image_output_contract svgPngNotebook idCtx
      { request_id := "req-8b", index := some 3 }).2 (by decide)).1

/-- C9 (confirmed): every handler wraps its body in the same
try/catch boundary (`runCatch`): a failure thrown inside the body becomes
a response envelope of that handler's result kind with `status: "error"`
and the thrown failure's message verbatim, the notebook untouched and
nothing else sent — the failure never escapes the handler (each handler is
a total function, so the dispatch loop cannot crash).  In particular a
`save_checkpoint` failure surfaces verbatim through `handleSaveNotebook`,
and an `insert_cell_at_index` failure through `handleInsertCell`. -/
theorem handler_error_boundary :
    (∀ (kind request_id : String) (nb : Notebook) (e : String),
      runCatch kind request_id nb (Except.error e) =
        (nb, [Event.send { rtype := kind, request_id := request_id,
                           status := "error", message := some e }])) ∧
    (∀ (nb : Notebook) (ctx : HostCtx) (data : Request) (e : String),
      handleSaveNotebook nb { ctx with saveOutcome := Except.error e }
          data =
        (nb, [Event.send
          (errorEnvelope "save_result" data.request_id e)])) ∧
    (∀ (nb : Notebook) (ctx : HostCtx) (data : Request) (e : String),
      handleInsertCell nb { ctx with insertOutcome := Except.error e }
          data =
        (nb, [Event.send
          (errorEnvelope "insert_cell_result" data.request_id e)])) := by
  refine ⟨fun kind request_id nb e => rfl,
          fun nb ctx data e => rfl,
          fun nb ctx data e => ?_⟩
  simp only [handleInsertCell]
  rfl

/-- C10 (confirmed): the numeric command fields are defaulted by JS falsy
coercion, making `0` indistinguishable from an absent field: in
`run_cell` and `get_cell_text_output` an absent `index` and `index: 0`
coincide (both become `0`); an absent `max_length` and `max_length: 0`
coincide and both coincide with `max_length: 1500`; and in
`insert_and_execute_cell` of `src/client.js` an absent `position` and
`position: 0` coincide and both coincide with `position: 1` — the cell is
inserted at position 1, not at the requested position 0. -/
theorem falsy_coercion_defaults (nb : Notebook) (ctx : HostCtx)
    (data : Request) :
    (handleRunCell nb ctx { data with index := none } =
      handleRunCell nb ctx { data with index := some 0 }) ∧
    (handleGetCellTextOutput nb ctx { data with index := none } =
      handleGetCellTextOutput nb ctx { data with index := some 0 }) ∧
    (handleGetCellTextOutput nb ctx { data with max_length := none } =
      handleGetCellTextOutput nb ctx { data with max_length := some 0 }) ∧
    (handleGetCellTextOutput nb ctx { data with max_length := some 0 } =
      handleGetCellTextOutput nb ctx { data with max_length := some 1500 }) ∧
    (handleInsertCell nb ctx { data with position := none } =
      handleInsertCell nb ctx { data with position := some 0 }) ∧
    (handleInsertCell nb ctx { data with position := some 0 } =
      handleInsertCell nb ctx { data with position := some 1 }) := by
  exact ⟨rfl, rfl, rfl, rfl, rfl, rfl⟩

/-- The kernel effect in the end-to-end scenario: executing the cell
yields the single text output `"2"`. -/
def scenarioExec : Cell → Cell := fun c =>
  { c with outputs := some [{ text := some ['2'], data := none }] }

/-- Host context for the end-to-end scenario. -/
def scenarioCtx : HostCtx :=
  { exec := scenarioExec, insertOutcome := Except.ok (),
    saveOutcome := Except.ok (), notebook_path := "notebook.ipynb",
    now := "0" }

/-- The empty notebook the scenario starts from. -/
def scenarioNotebook : Notebook := { cells := [], selected := none }

/-- The scenario command: `insert_and_execute_cell` with
`{position: 0, cell_type: "code", content: "1+1"}`. -/
def scenarioRequest : Request :=
  { request_id := "req-1", position := some 0, cell_type := some "code",
    content := some "1+1" }

/-- C1 (code bug): evaluating `handleInsertCell` of `src/client.js` on the
end-to-end scenario — `{position: 0, cell_type: "code", content: "1+1"}`
with the execution capturing text output `"2"` — the envelope has
`status: "success"`, `output_text: "2"`, `is_truncated: false` and
`has_images: false` as the scenario demands, but `position: 1`, not the
requested `0`: `var position = data.position || 1` coerces the falsy
requested position `0` to `1` before insertion and before echoing it. -/
theorem insert_scenario_reports_position_one :
    sentResponses (handleInsertCell scenarioNotebook scenarioCtx
        scenarioRequest).2 =
      [{ rtype := "insert_cell_result", request_id := "req-1",
         status := "success", cell_id := some "cell_1",
         position := some 1, output_text := some ['2'],
         is_truncated := some false, has_images := some false }] ∧
    (sentResponses (handleInsertCell scenarioNotebook scenarioCtx
        scenarioRequest).2).map Response.position ≠ [some 0] := by
  exact ⟨by decide, by decide⟩

/-- Invalid index (negative or beyond the cell count) means the indexed
cell access yields nothing. -/
theorem cellAt?_eq_none (nb : Notebook) (i : Int)
    (h : i < 0 ∨ (nb.cells.length : Int) ≤ i) : nb.cellAt? i = none := by
  unfold Notebook.cellAt?
  rcases h with h | h
  · rw [if_neg (by omega)]
  · by_cases h0 : 0 ≤ i
    · rw [if_pos h0]
      exact List.get?_eq_none.mpr (by omega)
    · rw [if_neg h0]

/-- Applying `select` with an invalid index leaves the notebook untouched. -/
theorem selectIdx_invalid (nb : Notebook) (i : Int)
    (h : i < 0 ∨ (nb.cells.length : Int) ≤ i) : nb.selectIdx i = nb := by
  unfold Notebook.selectIdx
  rw [if_neg (by omega)]

/-- C4 counterexample: on a one-cell notebook whose code cell is
selected, `run_cell` with the out-of-range index 5 responds with
`status: "success"` (not an error) and mutates the document (the
selected cell is executed): `handleRunCell` has no bounds check, and
`Jupyter.notebook.select(5)` silently ignores the invalid index, so
`get_selected_cell()` returns the previously selected cell and it is
executed. -/
theorem run_cell_out_of_range_succeeds :
    ((sentResponses (handleRunCell
        { cells := [{ cell_id := none, cell_type := "code", source := "x",
                      outputs := some [] }], selected := some 0 }
        scenarioCtx { request_id := "req-4", index := some 5 }).2).map
      Response.status = ["success"]) ∧
    (handleRunCell
        { cells := [{ cell_id := none, cell_type := "code", source := "x",
                      outputs := some [] }], selected := some 0 }
        scenarioCtx { request_id := "req-4", index := some 5 }).1 ≠
      { cells := [{ cell_id := none, cell_type := "code", source := "x",
                    outputs := some [] }], selected := some 0 } := by
  exact ⟨by decide, by decide⟩

/-- C4 (amended): with an index that is negative or beyond the cell
count, `get_cell_text_output` fails with the index-out-of-range error
envelope and performs no document change; `run_cell`, however, performs
no index validation of its own — the invalid `select` leaves the
selection unchanged, and when a code cell is currently selected the
handler executes that cell and responds `success` (echoing the invalid
index), mutating the document. -/
theorem index_bounds_behavior (nb : Notebook) (ctx : HostCtx)
    (data : Request)
    (hbad : jsOrInt data.index 0 < 0 ∨
            (nb.cells.length : Int) ≤ jsOrInt data.index 0) :
    handleGetCellTextOutput nb ctx data =
      (nb, [Event.send (errorEnvelope "get_cell_text_output_result"
              data.request_id cellIndexOutOfRangeMsg)]) ∧
    nb.selectIdx (jsOrInt data.index 0) = nb ∧
    (∀ (j : Nat) (c : Cell), nb.selected = some j →
      nb.cells.get? j = some c → c.cell_type = "code" →
      handleRunCell nb ctx data =
        (nb.setCell j (ctx.exec c),
         [Event.executeCell j, Event.execFinished j,
          Event.send (runCellSuccess data.request_id
            (jsOrStr c.cell_id ctx.now) (jsOrInt data.index 0)
            (ctx.exec c))])) := by
  have hnone := cellAt?_eq_none nb (jsOrInt data.index 0) hbad
  have hsel := selectIdx_invalid nb (jsOrInt data.index 0) hbad
  refine ⟨?_, hsel, ?_⟩
  · simp only [handleGetCellTextOutput, hnone]
    rfl
  · intro j c hj hc htype
    simp only [handleRunCell, hsel, Notebook.selectedCell, hj, hc, htype,
      Option.map_some']
    rfl

/-- Witness for C4's amended theorem: a one-cell notebook with the code
cell selected and the out-of-range index 5. -/
theorem index_bounds_behavior_witness :
    handleGetCellTextOutput
        { cells := [{ cell_id := none, cell_type := "code", source := "x",
                      outputs := some [] }], selected := some 0 }
        idCtx { request_id := "req-4b", index := some 5 } =
      ({ cells := [{ cell_id := none, cell_type := "code", source := "x",
                     outputs := some [] }], selected := some 0 },
       [Event.send (errorEnvelope "get_cell_text_output_result" "req-4b"
          cellIndexOutOfRangeMsg)]) ∧
    handleRunCell
        { cells := [{ cell_id := none, cell_type := "code", source := "x",
                      outputs := some [] }], selected := some 0 }
        idCtx { request_id := "req-4b", index := some 5 } =
      ({ cells := [{ cell_id := none, cell_type := "code", source := "x",
                     outputs := some [] }], selected := some 0 },
       [Event.executeCell 0, Event.execFinished 0,
        Event.send (runCellSuccess "req-4b" "0" 5
          { cell_id := none, cell_type := "code", source := "x",
            outputs := some [] })]) := by
  have h := index_bounds_behavior
    { cells := [{ cell_id := none, cell_type := "code", source := "x",
                  outputs := some [] }], selected := some 0 }
    idCtx { request_id := "req-4b", index := some 5 }
    (by decide)
  refine ⟨h.1, ?_⟩
  have h2 := h.2.2 0
    { cell_id := none, cell_type := "code", source := "x",
      outputs := some [] } rfl rfl rfl
  exact h2.trans (by decide)

/-- C5 counterexample: in the repository's `notebooks/client.js` variant
of the insert handler (cited by the claim alongside `src/client.js`), the
success response for a code cell is sent immediately after `execute()` is
issued — before the execution-finished signal fires — so the claim as
stated over the repository's insert handlers is false.  On the concrete
scenario input the trace has the send strictly before `execFinished`. -/
theorem legacy_insert_sends_before_finish :
    sendsAfterFinish (NBClient.handleInsertCell scenarioNotebook
      scenarioCtx scenarioRequest).2 false = false ∧
    (sentResponses (NBClient.handleInsertCell scenarioNotebook
      scenarioCtx scenarioRequest).2).map Response.status =
      ["success"] := by
  exact ⟨by decide, by decide⟩

/-- C5 (amended): in `src/client.js` the claim holds — for a code cell
the success response is sent only after the execution-finished signal and
captures the executed cell's output; for a markdown cell the response is
sent with no execution-finished signal and with empty captured output.
The legacy `notebooks/client.js` insert handler instead sends its success
response (which carries no captured output) before the signal fires. -/
theorem insert_cell_response_timing (nb : Notebook) (ctx : HostCtx)
    (data : Request) (hok : ctx.insertOutcome = Except.ok ()) :
    (jsOrStr data.cell_type "code" = "code" →
      sendsAfterFinish (handleInsertCell nb ctx data).2 false = true ∧
      sentResponses (handleInsertCell nb ctx data).2 =
        [insertCellSuccess data.request_id
           (ctx.exec (freshCell "code" (jsOrStr data.content "")))
           (jsOrNat data.position 1)]) ∧
    (jsOrStr data.cell_type "code" = "markdown" →
      noExecFinished (handleInsertCell nb ctx data).2 = true ∧
      sentResponses (handleInsertCell nb ctx data).2 =
        [insertCellSuccess data.request_id
           (freshCell "markdown" (jsOrStr data.content ""))
           (jsOrNat data.position 1)] ∧
      (insertCellSuccess data.request_id
         (freshCell "markdown" (jsOrStr data.content ""))
         (jsOrNat data.position 1)).output_text = some []) ∧
    (jsOrStr data.cell_type "code" = "code" →
      sendsAfterFinish (NBClient.handleInsertCell nb ctx data).2 false =
        false) := by
  refine ⟨fun hcode => ?_, fun hmark => ?_, fun hcode => ?_⟩
  · simp only [handleInsertCell, hok, hcode]
    exact ⟨rfl, rfl⟩
  · simp only [handleInsertCell, hok, hmark]
    exact ⟨rfl, rfl, rfl⟩
  · simp only [NBClient.handleInsertCell, hok, hcode]
    rfl

/-- The markdown instantiation used by the C5 witness. -/
def mdRequest : Request :=
  { request_id := "req-5m", cell_type := some "markdown",
    content := some "# h" }

/-- Witness for C5's amended theorem: the scenario code-cell insert on
`src/client.js` sends after the finish signal, the legacy variant sends
before it, and a markdown insert responds with empty captured output. -/
theorem insert_cell_response_timing_witness :
    sendsAfterFinish (handleInsertCell scenarioNotebook scenarioCtx
      scenarioRequest).2 false = true ∧
    sendsAfterFinish (NBClient.handleInsertCell scenarioNotebook
      scenarioCtx scenarioRequest).2 false = false ∧
    sentResponses (handleInsertCell scenarioNotebook scenarioCtx
      mdRequest).2 =
      [insertCellSuccess "req-5m" (freshCell "markdown" "# h") 1] := by
  have h := insert_cell_response_timing scenarioNotebook scenarioCtx
    scenarioRequest rfl
  have hm := insert_cell_response_timing scenarioNotebook scenarioCtx
    mdRequest rfl
  exact ⟨(h.1 rfl).1, h.2.2 rfl, (hm.2.1 rfl).2.1⟩

/-- C6 counterexample: in the repository's `notebooks/client.js` variant
of the run-all handler (cited by the claim alongside `src/client.js`),
`execute_all_cells()` is issued — the kernel is not restarted — so the
claim that every `run_all_cells` handler restarts the kernel is false; on
a concrete input the trace contains no restart action yet the success
response is sent. -/
theorem legacy_run_all_no_restart :
    Event.restartRunAll ∉ (NBClient.handleRunAllCells scenarioNotebook
      scenarioCtx { request_id := "req-6" }).2 ∧
    (sentResponses (NBClient.handleRunAllCells scenarioNotebook
      scenarioCtx { request_id := "req-6" }).2).map Response.status =
      ["success"] := by
  exact ⟨by decide, by decide⟩

/-- C6 (amended): in `src/client.js`, `run_all_cells` issues
`restart_run_all()` (kernel restart plus top-to-bottom re-execution) and
sends its success response at once, with no execution-finished signal
awaited — the deliberate asymmetry from `run_cell` and code-cell insert;
the legacy `notebooks/client.js` handler likewise responds at once but
issues `execute_all_cells()`, re-executing every cell without restarting
the kernel. -/
theorem run_all_issues_and_responds (nb : Notebook) (ctx : HostCtx)
    (data : Request) :
    handleRunAllCells nb ctx data =
      (nb, [Event.restartRunAll,
        Event.send { rtype := "run_all_cells_result",
                     request_id := data.request_id,
                     status := "success" }]) ∧
    noExecFinished (handleRunAllCells nb ctx data).2 = true ∧
    NBClient.handleRunAllCells nb ctx data =
      (nb, [Event.executeAllCells,
        Event.send { rtype := "run_all_cells_result",
                     request_id := data.request_id,
                     status := "success" }]) ∧
    noExecFinished (NBClient.handleRunAllCells nb ctx data).2 = true := by
  exact ⟨rfl, rfl, rfl, rfl⟩
